import Mathlib

inductive JVal where
  | null
  | bool (b : Bool)
  | int (n : Int)
  | str (s : String)
  | arr (elems : List JVal)
  | obj (fields : List (String × JVal))

/-- Split a character list at newline characters; like `String.splitOn "\n"`,
the result has one (possibly empty) segment per newline boundary. -/
def splitLinesChars : List Char → List (List Char)
  | [] => [[]]
  | c :: cs =>
    if c = '\n' then [] :: splitLinesChars cs
    else
      match splitLinesChars cs with
      | [] => [[c]]
      | seg :: rest => (c :: seg) :: rest

/-- Python `s.splitlines()` for newline-delimited text (the wire format is one
encoded record per `"\n"`-terminated line): split on `'\n'`, with no empty
trailing entry for a trailing newline and `[]` for the empty string.  (Python
also splits on `'\r'` and other line terminators; the wire format of this
client only ever uses `'\n'`.) -/
def pySplitlines (s : String) : List String :=
  if s.data.isEmpty then []
  else
    let parts := (splitLinesChars s.data).map (fun cs => String.mk cs)
    if s.data.getLast? = some '\n' then parts.dropLast else parts

example : pySplitlines "a\nb" = ["a", "b"] := by decide
example : pySplitlines "a\n" = ["a"] := by decide
example : pySplitlines "" = [] := by decide
example : pySplitlines "\n" = [""] := by decide
example : ("ab" ++ "c\nd").data = ['a', 'b', 'c', '\n', 'd'] := by decide

mutual

/-- Python structural equality on `JVal` (the semantics of Python `==` as the
client uses it, e.g. in list membership tests). -/
def jeq : JVal → JVal → Bool
  | .null, .null => true
  | .bool x, .bool y => x == y
  | .int x, .int y => x == y
  | .str x, .str y => x == y
  | .arr xs, .arr ys => jeqL xs ys
  | .obj fs, .obj gs => jeqF fs gs
  | _, _ => false

/-- Elementwise `jeq` on lists. -/
def jeqL : List JVal → List JVal → Bool
  | [], [] => true
  | x :: xs, y :: ys => jeq x y && jeqL xs ys
  | _, _ => false

/-- Fieldwise `jeq` on association lists. -/
def jeqF : List (String × JVal) → List (String × JVal) → Bool
  | [], [] => true
  | (k1, v1) :: fs, (k2, v2) :: gs => k1 == k2 && jeq v1 v2 && jeqF fs gs
  | _, _ => false

end

mutual

/-- Soundness and completeness of `jeq` with respect to equality. -/
theorem jeq_eq : (a b : JVal) → (jeq a b = true ↔ a = b)
  | .null, .null => by simp [jeq]
  | .null, .bool _ => by simp [jeq]
  | .null, .int _ => by simp [jeq]
  | .null, .str _ => by simp [jeq]
  | .null, .arr _ => by simp [jeq]
  | .null, .obj _ => by simp [jeq]
  | .bool _, .null => by simp [jeq]
  | .bool _, .bool _ => by simp [jeq]
  | .bool _, .int _ => by simp [jeq]
  | .bool _, .str _ => by simp [jeq]
  | .bool _, .arr _ => by simp [jeq]
  | .bool _, .obj _ => by simp [jeq]
  | .int _, .null => by simp [jeq]
  | .int _, .bool _ => by simp [jeq]
  | .int _, .int _ => by simp [jeq]
  | .int _, .str _ => by simp [jeq]
  | .int _, .arr _ => by simp [jeq]
  | .int _, .obj _ => by simp [jeq]
  | .str _, .null => by simp [jeq]
  | .str _, .bool _ => by simp [jeq]
  | .str _, .int _ => by simp [jeq]
  | .str _, .str _ => by simp [jeq]
  | .str _, .arr _ => by simp [jeq]
  | .str _, .obj _ => by simp [jeq]
  | .arr _, .null => by simp [jeq]
  | .arr _, .bool _ => by simp [jeq]
  | .arr _, .int _ => by simp [jeq]
  | .arr _, .str _ => by simp [jeq]
  | .arr xs, .arr ys => by simp [jeq, jeqL_eq xs ys]
  | .arr _, .obj _ => by simp [jeq]
  | .obj _, .null => by simp [jeq]
  | .obj _, .bool _ => by simp [jeq]
  | .obj _, .int _ => by simp [jeq]
  | .obj _, .str _ => by simp [jeq]
  | .obj _, .arr _ => by simp [jeq]
  | .obj fs, .obj gs => by simp [jeq, jeqF_eq fs gs]

/-- Soundness and completeness of `jeqL`. -/
theorem jeqL_eq : (xs ys : List JVal) → (jeqL xs ys = true ↔ xs = ys)
  | [], [] => by simp [jeqL]
  | [], _ :: _ => by simp [jeqL]
  | _ :: _, [] => by simp [jeqL]
  | x :: xs, y :: ys => by simp [jeqL, jeq_eq x y, jeqL_eq xs ys]

/-- Soundness and completeness of `jeqF`. -/
theorem jeqF_eq : (fs gs : List (String × JVal)) → (jeqF fs gs = true ↔ fs = gs)
  | [], [] => by simp [jeqF]
  | [], _ :: _ => by simp [jeqF]
  | _ :: _, [] => by simp [jeqF]
  | (k1, v1) :: fs, (k2, v2) :: gs => by
      simp [jeqF, jeq_eq v1 v2, jeqF_eq fs gs, and_assoc]

end

instance instDecEqJVal : DecidableEq JVal := fun a b =>
  decidable_of_iff (jeq a b = true) (jeq_eq a b)

example : (JVal.obj [("a", .int 1)]) = (JVal.obj [("a", .int 1)]) := by decide
example : JVal.str "x" ∈ [JVal.null, JVal.str "x"] := by decide

/-- Python truthiness of a `JVal` (empty containers, empty strings, zero,
`False` and `None` are falsy). -/
def pyTruthy : JVal → Bool
  | .null => false
  | .bool b => b
  | .int n => n != 0
  | .str s => !s.isEmpty
  | .arr xs => !xs.isEmpty
  | .obj fs => !fs.isEmpty

/-- Dictionary lookup: `v[k]` / `k in v` for a mapping `v`.  Returns `none`
when the key is absent or `v` is not a mapping.  (On a non-mapping, Python
subscription raises; every use below applies it to values known to be
mappings.) -/
def pyLookup (v : JVal) (k : String) : Option JVal :=
  match v with
  | .obj fs => fs.lookup k
  | _ => none

/-- Python `k in v` for a mapping `v` (also the semantics of `v.has_key(k)`). -/
def pyHasKey (v : JVal) (k : String) : Bool :=
  (pyLookup v k).isSome

/-!
Decoder: `QemuAgent._read_objects` (guest_agent.py lines 124-158).

The transport (the `Monitor` base class, an external collaborator) is
modelled per invocation by
  * `entry_avail : Bool` — the answer of the non-blocking entry check
    `self._data_available()` (line 133), and
  * `polls : List String` — for each subsequent deadline-bounded check
    `self._data_available(end_time - time.time())` (line 137) that answered
    true, the chunk that `self._recvall()` then returned; the list ends at
    the first check that answered false (no queued data, or the deadline
    elapsed).
`json.loads` is the external decoding collaborator, passed as
`decode : String → Option JVal` (`none` models a raised decode error, so
`decode "" = none` for a faithful instantiation).
-/

/-- Inner check of the read loop (guest_agent.py lines 140-149): the
`for`/`else` over `s.splitlines()` falls through to `break` exactly when
every nonempty line of the accumulated buffer decodes. -/
def all_lines_decodable (decode : String → Option JVal) (s : String) : Bool :=
  (pySplitlines s).all (fun line => line.isEmpty || (decode line).isSome)

/-- The `while self._data_available(...)` accumulation loop of
`_read_objects` (lines 137-149), as a state transformer: from the buffer
accumulated so far and the remaining transport oracle, produce the final
buffer and the unconsumed remainder of the oracle. -/
def read_objects_loop (decode : String → Option JVal) :
    String → List String → String × List String
  | s, [] => (s, [])
  | s, chunk :: rest =>
    let s2 := s ++ chunk
    if all_lines_decodable decode s2 then (s2, rest)
    else read_objects_loop decode s2 rest

/-- The buffer contents at the moment `_read_objects` stops reading. -/
def final_buffer (decode : String → Option JVal) (polls : List String) : String :=
  (read_objects_loop decode "" polls).1

/-- `QemuAgent._read_objects` (lines 124-158): if no data is available at
entry, return `[]` at once; otherwise accumulate chunks until all lines
decode or the transport stops answering, then decode every decodable line
of the buffer in one final pass (lines 150-158), silently skipping lines
that still fail.  Returns the decoded objects together with the unconsumed
transport oracle. -/
def read_objects (decode : String → Option JVal) (entry_avail : Bool)
    (polls : List String) : List JVal × List String :=
  if !entry_avail then ([], polls)
  else
    let p := read_objects_loop decode "" polls
    ((pySplitlines p.1).filterMap decode, p.2)

def decodeEx : String → Option JVal := fun s =>
  if s = "A" then some (.int 7)
  else if s = "B" then some (.obj [("return", .int 1)])
  else none

example : read_objects decodeEx true ["A\nB\n"] = ([.int 7, .obj [("return", .int 1)]], []) := by
  decide
example : read_objects decodeEx true ["A\nBRO"] = ([.int 7], []) := by decide
example : read_objects decodeEx true ["A\nBRO", "KEN\n"] = ([.int 7], []) := by decide
example : read_objects decodeEx false ["A\n"] = ([], ["A\n"]) := by decide

/-!
Error taxonomy (guest_agent.py lines 17-57) and the command engine
(`_get_response`, `cmd_raw`, `cmd`, lines 175-362).
-/

/-- The `VAgentError` hierarchy.  Each constructor carries what the source
passes to the exception constructor at its raise site (`data`/message
strings are kept; `cmdError` carries the command name, the original
arguments value and the error payload verbatim, cf. lines 48-57). -/
inductive VAgentErr where
  | connectError
  | notSupportedError
  | socketError (data : String)
  | lockError (data : String)
  | protocolError (data : String)
  | cmdError (cmd : String) (args : JVal) (data : JVal)
  deriving DecidableEq

/-- Transport oracle for one `_read_objects` invocation inside the reply
correlator: the entry availability answer and the chunk sequence. -/
structure ReadRound where
  entry : Bool
  polls : List String

/-- Check of lines 186-187: the object is a dict containing key `"return"`
or key `"error"` — a reply record. -/
def is_reply (o : JVal) : Bool :=
  match o with
  | .obj _ => pyHasKey o "return" || pyHasKey o "error"
  | _ => false

/-- `QemuAgent._get_response` (lines 175-190): while the transport reports
data before the deadline (one `ReadRound` per successful outer
`self._data_available(end_time - time.time())` check, the list ending when
that check answers false), decode the available objects and return the
first reply record found; on timeout return the empty dict (line 190).
Non-reply objects are dropped. -/
def get_response (decode : String → Option JVal) : List ReadRound → JVal
  | [] => .obj []
  | r :: rs =>
    match ((read_objects decode r.entry r.polls).1).find? is_reply with
    | some o => o
    | none => get_response decode rs

/-- `QemuAgent.cmd_raw` (lines 330-362), as a state transformer on the lock.
Inputs model the external collaborators: `lock_held` is the lock state at
entry (`Monitor._acquire_lock` is non-blocking here: it succeeds exactly
when the lock is free); `send_ok` is whether `self._socket.sendall` raised
`socket.error`; `drain` is the transport oracle for the stale-buffer drain
`self._read_objects()` (line 348, result discarded); `rounds` is the oracle
for `self._get_response(timeout)`.  Returns the outcome and the lock state
at exit; the `try`/`finally` of lines 347-358 releases the lock on every
path out of the body. -/
def cmd_raw (decode : String → Option JVal) (lock_held : Bool) (send_ok : Bool)
    (drain : ReadRound) (rounds : List ReadRound) (data : String)
    (success_resp : Bool) : Except VAgentErr JVal × Bool :=
  if lock_held then
    (.error (.lockError data), true)
  else
    -- lock acquired; try: drain stale objects (result discarded), then send
    let _ := read_objects decode drain.entry drain.polls
    if !send_ok then (.error (.socketError data), false)
    else if !success_resp then (.ok (.obj []), false)
    else
      let r := get_response decode rounds
      -- finally: lock released; then the `if r is None` check of line 360
      match r with
      | .null => (.error (.protocolError data), false)
      | _ => (.ok r, false)

instance instDecEqExceptVA : DecidableEq (Except VAgentErr JVal) := fun x y =>
  match x, y with
  | .ok a, .ok b => if h : a = b then isTrue (by rw [h]) else isFalse (by simp [h])
  | .error a, .error b => if h : a = b then isTrue (by rw [h]) else isFalse (by simp [h])
  | .ok _, .error _ => isFalse (by simp)
  | .error _, .ok _ => isFalse (by simp)

example : cmd_raw decodeEx false true ⟨false, []⟩ [⟨true, ["B\n"]⟩] "d" true
    = (.ok (.obj [("return", .int 1)]), false) := by decide
example : cmd_raw decodeEx false true ⟨false, []⟩ [] "d" true
    = (.ok (.obj []), false) := by decide
example : cmd_raw decodeEx true true ⟨false, []⟩ [] "d" true
    = (.error (.lockError "d"), true) := by decide

/-- Escaping of the two JSON string metacharacters; the development only
ever serialises plain identifiers, for which this matches `json.dumps`. -/
def escape_json_string (s : String) : String :=
  s.foldl (fun acc ch =>
    acc ++ (if ch = '"' then "\\\"" else if ch = '\\' then "\\\\"
            else String.singleton ch)) ""

mutual

/-- Serialisation collaborator `json.dumps` with its Python 2 default
separators. -/
def json_dumps : JVal → String
  | .null => "null"
  | .bool true => "true"
  | .bool false => "false"
  | .int n => toString n
  | .str s => "\"" ++ escape_json_string s ++ "\""
  | .arr xs => "[" ++ json_dumps_list xs ++ "]"
  | .obj fs => "\x7b" ++ json_dumps_fields fs ++ "\x7d"

/-- Comma-separated serialisation of array elements. -/
def json_dumps_list : List JVal → String
  | [] => ""
  | [x] => json_dumps x
  | x :: xs => json_dumps x ++ ", " ++ json_dumps_list xs

/-- Comma-separated serialisation of object fields. -/
def json_dumps_fields : List (String × JVal) → String
  | [] => ""
  | [(k, v)] => "\"" ++ escape_json_string k ++ "\": " ++ json_dumps v
  | (k, v) :: fs =>
      "\"" ++ escape_json_string k ++ "\": " ++ json_dumps v ++ ", "
        ++ json_dumps_fields fs

end

/-- `QemuAgent._build_cmd` (lines 117-121): the command envelope
`execute`/`arguments`, with `arguments` present exactly when `args` is not
Python `None`. -/
def build_cmd (c : String) (args : JVal) : JVal :=
  if args = JVal.null then .obj [("execute", .str c)]
  else .obj [("execute", .str c), ("arguments", args)]

/-- `QemuAgent.cmd` (lines 290-326): build the envelope, serialise it with a
trailing newline, delegate to `cmd_raw` (errors propagate).  With no
response expected return `""`; otherwise return the `"return"` payload if
present, raise `VAgentCmdError(cmd, args, r["error"])` if `"error"` is
present, and fall through to Python `None` when the reply has neither key.
Logging (`_log_command`/`_log_response`, gated by `debug`) is a side effect
the contract ignores. -/
def cmd (decode : String → Option JVal) (lock_held : Bool) (send_ok : Bool)
    (drain : ReadRound) (rounds : List ReadRound) (c : String) (args : JVal)
    (success_resp : Bool) : Except VAgentErr JVal × Bool :=
  let data := json_dumps (build_cmd c args) ++ "\n"
  match cmd_raw decode lock_held send_ok drain rounds data success_resp with
  | (.error e, st) => (.error e, st)
  | (.ok r, st) =>
    if !success_resp then (.ok (.str ""), st)
    else
      match pyLookup r "return" with
      | some ret => (.ok ret, st)
      | none =>
        match pyLookup r "error" with
        | some err => (.error (.cmdError c args err), st)
        | none => (.ok .null, st)

example : cmd decodeEx false true ⟨false, []⟩ [⟨true, ["B\n"]⟩] "guest-ping" .null true
    = (.ok (.int 1), false) := by decide
example : cmd decodeEx false true ⟨false, []⟩ [] "guest-ping" .null true
    = (.ok .null, false) := by decide
example : cmd decodeEx false true ⟨false, []⟩ [] "guest-shutdown" .null false
    = (.ok (.str ""), false) := by decide

/-!
Capability cache: `_get_supported_cmds` (lines 193-206) and `_has_command`
(lines 209-228).  The cache `self._supported_cmds` is a Python list holding
command-name values, or the sentinel list `[None]`; it is modelled as
`List JVal` with the sentinel element `JVal.null`.  The base class
initialises the attribute empty (kvm_monitor.py, outside src/), so `[]`
means "not yet populated".
-/

/-- Python iteration over a container value: a list yields its elements, a
dict its keys, a string its characters.  (Iterating any other value raises
TypeError; no use below reaches that case.) -/
def iter_elems : JVal → List JVal
  | .arr xs => xs
  | .obj fs => fs.map (fun kv => JVal.str kv.1)
  | .str s => s.data.map (fun ch => JVal.str (String.singleton ch))
  | _ => []

/-- The list comprehension of lines 200-201: the `"name"` field of every
element that is a mapping carrying that field. -/
def extract_names (cmd_list : JVal) : List JVal :=
  (iter_elems cmd_list).filterMap (fun n =>
    match n with
    | .obj fs => fs.lookup "name"
    | _ => none)

/-- State update performed by `_get_supported_cmds` (lines 193-206) on the
cache, given the prior cache value and the payload `cmds` returned by the
`guest-info` call: extract the names when the payload is truthy and has a
`supported_commands` key, keep the prior value otherwise; if the result is
empty store the sentinel `[None]` (with a logged warning). -/
def get_supported_cmds_upd (prev : List JVal) (cmds : JVal) : List JVal :=
  let sc := if pyTruthy cmds && pyHasKey cmds "supported_commands"
            then extract_names ((pyLookup cmds "supported_commands").getD .null)
            else prev
  if sc.isEmpty then [JVal.null] else sc

/-- Arguments of the discovery call issued at line 197:
`self.cmd("guest-info", debug=False)` with the defaults `args=None`,
`success_resp=True`. -/
structure GuestCall where
  name : String
  debug : Bool
  success_resp : Bool
  deriving DecidableEq

/-- Outcome of one `_has_command` invocation: the discovery call it issued
(if any), the cache afterwards, and the returned boolean. -/
structure HasCmdOut where
  issued : Option GuestCall
  cmds : List JVal
  supported : Bool
  deriving DecidableEq

/-- `QemuAgent._has_command` (lines 209-228): when the cache is empty, first
populate it by issuing `guest-info` (line 219 spells the populating method
`self.get_supported_cmds()`; that name resolves outside src/ — modelled
from the spec as the discovery routine `_get_supported_cmds`, whose reply
payload is the parameter `reply`).  Then: if the first cache element is
`None`, report supported; otherwise report supported exactly when `c` is
truthy and a member of the cache. -/
def has_command (sc : List JVal) (reply : JVal) (c : String) : HasCmdOut :=
  let issued := if sc.isEmpty then some ⟨"guest-info", false, true⟩ else none
  let sc2 := if sc.isEmpty then get_supported_cmds_upd sc reply else sc
  match sc2 with
  | [] => ⟨issued, sc2, false⟩  -- unreachable: Python would raise IndexError
  | x :: _ =>
    match x with
    | .null => ⟨issued, sc2, true⟩
    | _ => ⟨issued, sc2, !c.isEmpty && sc2.any (fun y => jeq y (.str c))⟩

def replyListingEx : JVal :=
  .obj [("supported_commands",
    .arr [.obj [("name", .str "guest-ping")], .obj [("name", .str "guest-shutdown")]])]

example : get_supported_cmds_upd [] replyListingEx
    = [.str "guest-ping", .str "guest-shutdown"] := by decide
example : (has_command [] replyListingEx "guest-ping").supported = true := by decide
example : (has_command [] replyListingEx "unknown-cmd").supported = false := by decide
example : (has_command [] (.obj []) "anything").supported = true := by decide
example : (has_command [.str ""] (.obj []) "").supported = false := by decide

/-!
Claim theorems.
-/

/-- Accumulation loop invariant: the loop consumes a prefix of the transport
oracle, each chunk at most once and in arrival order, and the final buffer
is the initial buffer followed by exactly that prefix. -/
theorem read_objects_loop_spec (decode : String → Option JVal) :
    ∀ (polls : List String) (s0 : String),
    ∃ pre, pre ++ (read_objects_loop decode s0 polls).2 = polls ∧
      (read_objects_loop decode s0 polls).1
        = pre.foldl (fun acc chunk => acc ++ chunk) s0 := by
  intro polls
  induction polls with
  | nil =>
    intro s0
    exact ⟨[], rfl, rfl⟩
  | cons chunk rest ih =>
    intro s0
    by_cases h : all_lines_decodable decode (s0 ++ chunk)
    · refine ⟨[chunk], ?_, ?_⟩ <;> simp [read_objects_loop, h]
    · obtain ⟨pre, h1, h2⟩ := ih (s0 ++ chunk)
      refine ⟨chunk :: pre, ?_, ?_⟩ <;>
        simp [read_objects_loop, h, h1, h2]

/-- C3: within one `_read_objects` invocation, (i) the final buffer consists
of a prefix of the received chunks, each consumed exactly once and in order
— so repeated polling iterations never re-read (hence never re-report) a
line's content; (ii) the returned objects are produced by a single decode
pass over the lines of that final buffer, one attempt per line; and
(iii) every fully received, parseable line of the buffer appears in the
returned list — it is never withheld because some later line is still
incomplete (undecodable). -/
theorem c3_read_objects_single_report (decode : String → Option JVal)
    (polls : List String) :
    (∃ pre, pre ++ (read_objects_loop decode "" polls).2 = polls ∧
      final_buffer decode polls = pre.foldl (fun acc chunk => acc ++ chunk) "") ∧
    (read_objects decode true polls).1
      = (pySplitlines (final_buffer decode polls)).filterMap decode ∧
    ∀ l v, l ∈ pySplitlines (final_buffer decode polls) → decode l = some v →
      v ∈ (read_objects decode true polls).1 := by
  refine ⟨read_objects_loop_spec decode polls "", rfl, ?_⟩
  intro l v hl hv
  show v ∈ (read_objects decode true polls).1
  have : (read_objects decode true polls).1
      = (pySplitlines (final_buffer decode polls)).filterMap decode := rfl
  rw [this]
  exact List.mem_filterMap.mpr ⟨l, hl, hv⟩

/-- Witness for C3 at a concrete input: the complete line `"A"` is reported
even though the trailing line `"BRO"` is still incomplete. -/
theorem c3_witness : JVal.int 7 ∈ (read_objects decodeEx true ["A\nBRO"]).1 :=
  (c3_read_objects_single_report decodeEx ["A\nBRO"]).2.2 "A" (.int 7)
    (by decide) (by decide)

/-- C10: when no data is available at entry, `_read_objects` returns the
empty list at once (line 133-134, before the deadline is even computed),
independently of — and without consuming — the rest of the transport
oracle. -/
theorem c10_read_objects_no_data (decode : String → Option JVal)
    (polls : List String) :
    read_objects decode false polls = ([], polls) := rfl

/-- C1 exhibit (code bug): when no reply record is decoded before the
deadline, `_get_response` returns the empty dict (line 190) — not a
sentinel distinct from an empty-mapping success — and `cmd_raw`, whose
dead check at line 360 compares that dict against `None`, returns the
empty dict without raising `VAgentProtocolError`, contradicting its own
docstring (line 341); `cmd` then falls through both key checks and returns
Python `None`. -/
theorem c1_timeout_behaviour (decode : String → Option JVal) (drain : ReadRound)
    (data : String) (c : String) (args : JVal) :
    get_response decode [] = .obj [] ∧
    cmd_raw decode false true drain [] data true = (.ok (.obj []), false) ∧
    cmd decode false true drain [] c args true = (.ok .null, false) :=
  ⟨rfl, rfl, rfl⟩

/-- Inputs of one `cmd_raw` invocation, lock state apart. -/
structure RawCall where
  send_ok : Bool
  drain : ReadRound
  rounds : List ReadRound
  data : String
  success_resp : Bool

/-- Consecutive `cmd_raw` invocations threading the lock state. -/
def run_raw_calls (decode : String → Option JVal) :
    List RawCall → Bool → List (Except VAgentErr JVal) × Bool
  | [], st => ([], st)
  | k :: ks, st =>
    let p := cmd_raw decode st k.send_ok k.drain k.rounds k.data k.success_resp
    let q := run_raw_calls decode ks p.2
    (p.1 :: q.1, q.2)

/-- Recogniser for the `VAgentLockError` outcome. -/
def is_lock_error : Except VAgentErr JVal → Bool
  | .error (.lockError _) => true
  | _ => false

/-- Helper: a `cmd_raw` invocation that acquires the lock leaves it released
whatever the outcome, and never fails with a lock error. -/
theorem cmd_raw_releases (decode : String → Option JVal) (send_ok : Bool)
    (drain : ReadRound) (rounds : List ReadRound) (data : String)
    (success_resp : Bool) :
    (cmd_raw decode false send_ok drain rounds data success_resp).2 = false ∧
    is_lock_error
      (cmd_raw decode false send_ok drain rounds data success_resp).1 = false := by
  cases send_ok with
  | false => simp [cmd_raw, is_lock_error]
  | true =>
    cases success_resp with
    | false => simp [cmd_raw, is_lock_error]
    | true =>
      simp only [cmd_raw, Bool.false_eq_true, if_false, Bool.not_true,
        Bool.not_false, if_true]
      cases get_response decode rounds <;> simp [is_lock_error]

/-- C7: every `cmd_raw` invocation that acquires the lock (the acquisition
succeeds exactly when the lock is free) releases it on every exit path —
reply, empty no-response return, or raised failure — and consequently a
sequence of invocations starting with a free lock never sees a later call
fail to acquire it, however many earlier calls failed. -/
theorem c7_lock_released (decode : String → Option JVal) (send_ok : Bool)
    (drain : ReadRound) (rounds : List ReadRound) (data : String)
    (success_resp : Bool) (calls : List RawCall) :
    (cmd_raw decode false send_ok drain rounds data success_resp).2 = false ∧
    (run_raw_calls decode calls false).2 = false ∧
    ∀ r ∈ (run_raw_calls decode calls false).1, is_lock_error r = false := by
  refine ⟨(cmd_raw_releases decode send_ok drain rounds data success_resp).1, ?_⟩
  induction calls with
  | nil => simp [run_raw_calls]
  | cons k ks ih =>
    have h := cmd_raw_releases decode k.send_ok k.drain k.rounds k.data k.success_resp
    simp only [run_raw_calls, h.1]
    refine ⟨ih.1, ?_⟩
    intro r hr
    rcases List.mem_cons.mp hr with h1 | h1
    · rw [h1]; exact h.2
    · exact ih.2 r h1

/-- Helper: `_get_response` always yields a dict — either a found reply
record (guarded by `isinstance(obj, dict)`) or the empty dict on timeout.
In particular it never yields Python `None`. -/
theorem get_response_is_obj (decode : String → Option JVal) :
    ∀ rounds, ∃ fs, get_response decode rounds = .obj fs := by
  intro rounds
  induction rounds with
  | nil => exact ⟨[], rfl⟩
  | cons r rs ih =>
    simp only [get_response]
    cases hf : ((read_objects decode r.entry r.polls).1).find? is_reply with
    | none => exact ih
    | some o =>
      have ho : is_reply o = true := List.find?_some hf
      cases o with
      | obj fs => exact ⟨fs, rfl⟩
      | null => simp [is_reply] at ho
      | bool b => simp [is_reply] at ho
      | int n => simp [is_reply] at ho
      | str s => simp [is_reply] at ho
      | arr xs => simp [is_reply] at ho

/-- Helper: with the lock free and the send succeeding, `cmd_raw` with a
response expected returns the correlated reply dict and releases the
lock. -/
theorem cmd_raw_ok (decode : String → Option JVal) (drain : ReadRound)
    (rounds : List ReadRound) (data : String) (fs : List (String × JVal))
    (h : get_response decode rounds = .obj fs) :
    cmd_raw decode false true drain rounds data true = (.ok (.obj fs), false) := by
  simp [cmd_raw, h]

/-- C6: for any command issued expecting a response whose correlated reply
mapping carries key `"return"` with value `X`, `cmd` returns exactly `X`
(and the lock ends up released). -/
theorem c6_return_payload (decode : String → Option JVal) (drain : ReadRound)
    (rounds : List ReadRound) (c : String) (args : JVal) (X : JVal)
    (h : pyLookup (get_response decode rounds) "return" = some X) :
    cmd decode false true drain rounds c args true = (.ok X, false) := by
  obtain ⟨fs, hr⟩ := get_response_is_obj decode rounds
  have hc := cmd_raw_ok decode drain rounds
    (json_dumps (build_cmd c args) ++ "\n") fs hr
  rw [hr] at h
  simp [cmd, hc, h]

/-- Witness for C6: a transport delivering `"return": 1` makes the call
return `1`. -/
theorem c6_witness :
    cmd decodeEx false true ⟨false, []⟩ [⟨true, ["B\n"]⟩] "guest-ping" .null true
      = (.ok (.int 1), false) :=
  c6_return_payload decodeEx ⟨false, []⟩ [⟨true, ["B\n"]⟩] "guest-ping" .null
    (.int 1) (by decide)

def decodeBoth : String → Option JVal := fun s =>
  if s = "BOTH" then some (.obj [("return", .int 1), ("error", .str "E")])
  else if s = "ERR" then some (.obj [("error", .str "bad")])
  else none

/-- C5 counterexample: a correlated reply carrying key `"error"` (payload
`"E"`) alongside key `"return"` makes `cmd` return the `"return"` payload
successfully — line 320 tests `"return"` first — so the call does not fail
with `VAgentCmdError` although the reply contains `"error"`. -/
theorem c5_counterexample :
    pyLookup (get_response decodeBoth [⟨true, ["BOTH\n"]⟩]) "error"
      = some (.str "E") ∧
    cmd decodeBoth false true ⟨false, []⟩ [⟨true, ["BOTH\n"]⟩] "guest-sync" .null true
      = (.ok (.int 1), false) ∧
    (cmd decodeBoth false true ⟨false, []⟩ [⟨true, ["BOTH\n"]⟩] "guest-sync" .null true).1
      ≠ .error (.cmdError "guest-sync" .null (.str "E")) :=
  ⟨by decide, by decide, by decide⟩

/-- C5 as amended: for any command issued expecting a response whose
correlated reply mapping carries key `"error"` with payload `E` and does
not carry key `"return"`, the call fails with `VAgentCmdError` carrying
exactly the original command name, the original arguments value and `E`
verbatim. -/
theorem c5_cmd_error (decode : String → Option JVal) (drain : ReadRound)
    (rounds : List ReadRound) (c : String) (args : JVal) (E : JVal)
    (herr : pyLookup (get_response decode rounds) "error" = some E)
    (hret : pyLookup (get_response decode rounds) "return" = none) :
    cmd decode false true drain rounds c args true
      = (.error (.cmdError c args E), false) := by
  obtain ⟨fs, hr⟩ := get_response_is_obj decode rounds
  have hc := cmd_raw_ok decode drain rounds
    (json_dumps (build_cmd c args) ++ "\n") fs hr
  rw [hr] at herr hret
  simp [cmd, hc, herr, hret]

/-- Witness for the amended C5, mirroring Scenario B of the spec: an
`"error"`-only reply to `guest-sync` with arguments `id: 42` raises the
command error with those fields verbatim. -/
theorem c5_witness :
    cmd decodeBoth false true ⟨false, []⟩ [⟨true, ["ERR\n"]⟩] "guest-sync"
        (.obj [("id", .int 42)]) true
      = (.error (.cmdError "guest-sync" (.obj [("id", .int 42)]) (.str "bad")),
         false) :=
  c5_cmd_error decodeBoth ⟨false, []⟩ [⟨true, ["ERR\n"]⟩] "guest-sync"
    (.obj [("id", .int 42)]) (.str "bad") (by decide) (by decide)

/-- C8: when the correlated reply mapping carries neither `"return"` nor
`"error"` — in particular the empty dict `_get_response` produces on
timeout — `cmd` with a response expected returns Python `None` and raises
nothing. -/
theorem c8_no_key_returns_none (decode : String → Option JVal)
    (drain : ReadRound) (rounds : List ReadRound) (c : String) (args : JVal)
    (hret : pyLookup (get_response decode rounds) "return" = none)
    (herr : pyLookup (get_response decode rounds) "error" = none) :
    cmd decode false true drain rounds c args true = (.ok .null, false) := by
  obtain ⟨fs, hr⟩ := get_response_is_obj decode rounds
  have hc := cmd_raw_ok decode drain rounds
    (json_dumps (build_cmd c args) ++ "\n") fs hr
  rw [hr] at hret herr
  simp [cmd, hc, hret, herr]

/-- Witness for C8 at the timeout reply: no rounds yield the empty dict, and
the call returns `None`. -/
theorem c8_witness :
    cmd decodeEx false true ⟨false, []⟩ [] "guest-ping" .null true
      = (.ok .null, false) :=
  c8_no_key_returns_none decodeEx ⟨false, []⟩ [] "guest-ping" .null
    (by decide) (by decide)

/-- Helper: the discovery update never leaves the cache empty — an empty
extraction is replaced by the sentinel `[None]`. -/
theorem get_supported_cmds_upd_ne_nil (prev : List JVal) (cmds : JVal) :
    get_supported_cmds_upd prev cmds ≠ [] := by
  unfold get_supported_cmds_upd
  set sc := if pyTruthy cmds && pyHasKey cmds "supported_commands"
            then extract_names ((pyLookup cmds "supported_commands").getD .null)
            else prev with hsc
  cases h : sc.isEmpty with
  | true => simp [h]
  | false =>
    simp only [h, if_false, Bool.false_eq_true]
    intro hnil
    rw [hnil] at h
    simp at h

/-- Helper: Python list membership via `==` agrees with `List.Mem`. -/
theorem any_jeq_mem (v : JVal) (l : List JVal) :
    l.any (fun y => jeq y v) = true ↔ v ∈ l := by
  simp only [List.any_eq_true]
  constructor
  · rintro ⟨y, hy, hj⟩
    rw [(jeq_eq y v).mp hj] at hy
    exact hy
  · intro hv
    exact ⟨v, hv, (jeq_eq v v).mpr rfl⟩

/-- Helper: Python string falsity. -/
theorem string_isEmpty_false_iff (s : String) : s.isEmpty = false ↔ s ≠ "" := by
  rw [← Bool.not_eq_true, not_iff_not]
  exact String.isEmpty_iff s

/-- C2: a capability check finding the cache unpopulated first issues the
discovery command — `guest-info`, with logging suppressed (`debug=False`)
and a response expected — and then evaluates the queried name against the
cache that discovery populated: supported exactly when the populated cache
starts with the sentinel, or the name is truthy and a member of the
populated cache. -/
theorem c2_lazy_discovery (reply : JVal) (c : String) :
    (has_command [] reply c).issued = some ⟨"guest-info", false, true⟩ ∧
    (has_command [] reply c).cmds = get_supported_cmds_upd [] reply ∧
    ((has_command [] reply c).supported = true ↔
      ((get_supported_cmds_upd [] reply).head? = some JVal.null ∨
        (c ≠ "" ∧ JVal.str c ∈ get_supported_cmds_upd [] reply))) := by
  have hne := get_supported_cmds_upd_ne_nil [] reply
  unfold has_command
  rcases hsc : get_supported_cmds_upd [] reply with _ | ⟨x, rest⟩
  · exact absurd hsc hne
  · simp only [List.isEmpty_nil, if_true, hsc]
    cases x with
    | null =>
      refine ⟨rfl, rfl, ?_⟩
      simp
    | bool b =>
      refine ⟨rfl, rfl, ?_⟩
      rw [Bool.and_eq_true, any_jeq_mem]
      simp [string_isEmpty_false_iff]
    | int n =>
      refine ⟨rfl, rfl, ?_⟩
      rw [Bool.and_eq_true, any_jeq_mem]
      simp [string_isEmpty_false_iff]
    | str s =>
      refine ⟨rfl, rfl, ?_⟩
      rw [Bool.and_eq_true, any_jeq_mem]
      simp [string_isEmpty_false_iff]
    | arr xs =>
      refine ⟨rfl, rfl, ?_⟩
      rw [Bool.and_eq_true, any_jeq_mem]
      simp [string_isEmpty_false_iff]
    | obj fs =>
      refine ⟨rfl, rfl, ?_⟩
      rw [Bool.and_eq_true, any_jeq_mem]
      simp [string_isEmpty_false_iff]


def replyNoNamesEx : JVal :=
  .obj [("supported_commands", .arr [.str "guest-ping"])]

/-- C4: after discovery from a reply listing `guest-ping` and
`guest-shutdown`, a capability check for a listed name reports supported
and for an unlisted name reports unsupported; after discovery from a reply
with no extractable names, the sentinel `[None]` is stored and every
capability check reports supported. -/
theorem c4_capability_checks :
    (has_command [] replyListingEx "guest-ping").supported = true ∧
    (has_command [] replyListingEx "unknown-cmd").supported = false ∧
    get_supported_cmds_upd [] replyNoNamesEx = [JVal.null] ∧
    ∀ c : String, (has_command [] replyNoNamesEx c).supported = true := by
  refine ⟨by decide, by decide, by decide, ?_⟩
  intro c
  have h : get_supported_cmds_upd [] replyNoNamesEx = [JVal.null] := by decide
  simp [has_command, h]

/-- C9: a capability check for a falsy (empty) command name reports
unsupported whenever the cache is populated with a first element other
than the sentinel — even when the empty name is itself an element of the
cache. -/
theorem c9_falsy_name_unsupported (sc : List JVal) (reply : JVal) (x : JVal)
    (rest : List JVal) (hsc : sc = x :: rest) (hx : x ≠ JVal.null) :
    (has_command sc reply "").supported = false := by
  subst hsc
  have he : "".isEmpty = true := rfl
  cases x with
  | null => exact absurd rfl hx
  | bool b => simp [has_command, he]
  | int n => simp [has_command, he]
  | str s => simp [has_command, he]
  | arr xs => simp [has_command, he]
  | obj fs => simp [has_command, he]

/-- Witness for C9: the cache `[""]` contains the empty name, yet the check
for the empty name reports unsupported. -/
theorem c9_witness :
    (has_command [JVal.str ""] (.obj []) "").supported = false ∧
    JVal.str "" ∈ [JVal.str ""] :=
  ⟨c9_falsy_name_unsupported [JVal.str ""] (.obj []) (.str "") [] rfl
    (by decide), by decide⟩
